import Mathlib

/-!
Verification development for the nfl-stat-compiler ingestion pipeline.

The definitions below are a shallow embedding of the two source modules
that implement the pipeline:

* `database_connector.py` — value coercion helpers (`_to_int`,
  `_int_or_zero`, `_merge_completions`), the six per-category upsert
  functions, `insert_all_player_stats` and `wipe_all_stats_tables`;
* `espn_schedule_scraper.py` — the extractor's completions/attempts token
  handling and the `compile_season_stats` orchestration.

Python optional values are modelled as `Option _`; database NULL is
`none`; the aggregate tables are association lists keyed by player id.
Python string contents are manipulated through their character lists so
that every definition evaluates inside the kernel.
-/

namespace NflStat

/-! ## Numeric string coercion (`database_connector._to_int`) -/

/-- Python `str.strip()`: drop whitespace from both ends. -/
def pyStrip (l : List Char) : List Char :=
  ((l.dropWhile Char.isWhitespace).reverse.dropWhile Char.isWhitespace).reverse

/-- Value of a run of decimal digits. -/
def digitsVal (l : List Char) : Nat :=
  l.foldl (fun a c => a * 10 + (c.toNat - 48)) 0

/-- Split an optional leading sign off a numeric literal:
`true` means a leading minus. -/
def parseSign (l : List Char) : Bool × List Char :=
  match l with
  | '-' :: rest => (true, rest)
  | '+' :: rest => (false, rest)
  | _ => (false, l)

/-- Model of Python `int(s)` on a string: surrounding whitespace ignored,
optional sign, then a non-empty run of decimal digits; anything else raises
(modelled as `none`).  Digit-group underscores never occur in box-score
tokens and are not modelled. -/
def parsePyInt (l : List Char) : Option Int :=
  let p := parseSign (pyStrip l)
  if !p.2.isEmpty && p.2.all Char.isDigit then
    some (if p.1 then -(digitsVal p.2 : Int) else (digitsVal p.2 : Int))
  else none

/-- Model of Python `int(float(s))` on a string holding a plain decimal
literal: optional sign, digits with at most one decimal point, value
truncated toward zero.  Exponent/infinity/nan forms never occur in
box-score tokens and are not modelled. -/
def parsePyFloatTrunc (l : List Char) : Option Int :=
  let p := parseSign (pyStrip l)
  let intPart := p.2.takeWhile (fun c => c ≠ '.')
  let rest := p.2.drop intPart.length
  let fracPart := rest.drop 1
  if intPart.all Char.isDigit && fracPart.all Char.isDigit &&
      (!intPart.isEmpty || !fracPart.isEmpty) then
    some (if p.1 then -(digitsVal intPart : Int) else (digitsVal intPart : Int))
  else none

/-- Model of `database_connector._to_int` applied to string contents: first
`int(v)`, then the fallback `int(float(str(v).replace(",", "")))`;
`none` if both fail. -/
def to_int_chars (l : List Char) : Option Int :=
  match parsePyInt l with
  | some n => some n
  | none => parsePyFloatTrunc (l.filter (fun c => c ≠ ','))

/-- Model of `database_connector._to_int` on a string value. -/
def to_int_str (s : String) : Option Int :=
  to_int_chars s.data

/-- Model of `database_connector._int_or_zero` on the already-typed optional
integers that reach it in the upsert functions (`_to_int` is the identity
on `None`/`int` inputs). -/
def int_or_zero (v : Option Int) : Int := v.getD 0

/-- Python `x or 0` on an optional integer: `None` and `0` are both falsy,
so the result is `x.getD 0` in either case. -/
def py_or_zero (v : Option Int) : Int := v.getD 0

/-! ## Completions/attempts merge (`database_connector._merge_completions`) -/

/-- The inner `to_pair` of `_merge_completions`: `str(s).strip()` (the
identity on a string apart from trimming), split at the first slash into
two `_to_int`-parsed halves; a slash-free string is a bare left value;
`None` decomposes to `(None, None)`. -/
def to_pair (s : Option String) : Option Int × Option Int :=
  match s with
  | none => (none, none)
  | some s0 =>
    let t := pyStrip s0.data
    if t.contains '/' then
      let l := t.takeWhile (fun c => c ≠ '/')
      let r := t.drop (l.length + 1)
      (to_int_chars l, to_int_chars r)
    else
      (to_int_chars t, none)

/-- Transcription of `database_connector._merge_completions` from the source:
decompose both sides with `to_pair`; if everything is missing return
`None`; otherwise sum the left sides (missing as 0) and emit the
slash form exactly when either side carried a right component. -/
def merge_completions (existing incoming : Option String) : Option String :=
  let ep := to_pair existing
  let ip := to_pair incoming
  if ep.1 = none ∧ ep.2 = none ∧ ip.1 = none ∧ ip.2 = none then
    none
  else
    let left_sum := py_or_zero ep.1 + py_or_zero ip.1
    if ep.2 ≠ none ∨ ip.2 ≠ none then
      let right_sum := py_or_zero ep.2 + py_or_zero ip.2
      some (toString left_sum ++ "/" ++ toString right_sum)
    else
      some (toString left_sum)

/-- The fraction-merge output rule transcribed from the specification's
words (decomposition as in `to_pair`): if both sides are fully absent the
result is null; otherwise the left components (null as 0) are summed and
the `"left/right"` form is produced exactly when either side has a
non-null right component, the plain `"left"` form otherwise. -/
def mergeFraction_spec (existing incoming : Option String) : Option String :=
  match to_pair existing, to_pair incoming with
  | (none, none), (none, none) => none
  | (el, er), (il, ir) =>
    let leftSum := el.getD 0 + il.getD 0
    if er.isSome || ir.isSome then
      some (toString leftSum ++ "/" ++ toString (er.getD 0 + ir.getD 0))
    else
      some (toString leftSum)

theorem merge_completions_eq_spec (e i : Option String) :
    merge_completions e i = mergeFraction_spec e i := by
  unfold merge_completions mergeFraction_spec
  rcases h1 : to_pair e with ⟨el, er⟩
  rcases h2 : to_pair i with ⟨il, ir⟩
  rcases el with _ | a <;> rcases er with _ | b <;>
    rcases il with _ | c <;> rcases ir with _ | d <;>
      simp [py_or_zero, Option.getD]

/-! ## Category records (`espn_schedule_scraper` dataclasses) and stored rows

Identity fields are uninterpreted strings as delivered by the source feed; all
category-specific numbers have already gone through the extractor's
`_safe_stat` and are optional integers. -/

structure PassingStats where
  team_id : Option String
  team_name : Option String
  player_id : Option String
  player_name : Option String
  player_headshot_url : Option String
  completions_attempts : Option String
  passing_yards : Option Int
  passing_touchdowns : Option Int
  interceptions : Option Int
  sacks : Option Int
deriving DecidableEq, Repr

structure RushingStats where
  team_id : Option String
  team_name : Option String
  player_id : Option String
  player_name : Option String
  player_headshot_url : Option String
  rushing_attempts : Option Int
  rushing_yards : Option Int
  rushing_touchdowns : Option Int
  longest_run : Option Int
deriving DecidableEq, Repr

structure ReceivingStats where
  team_id : Option String
  team_name : Option String
  player_id : Option String
  player_name : Option String
  player_headshot_url : Option String
  receptions : Option Int
  receiving_yards : Option Int
  receiving_touchdowns : Option Int
  longest_reception : Option Int
  targets : Option Int
deriving DecidableEq, Repr

structure FumblesStats where
  team_id : Option String
  team_name : Option String
  player_id : Option String
  player_name : Option String
  player_headshot_url : Option String
  fumbles : Option Int
  fumbles_lost : Option Int
  fumbles_recovered : Option Int
deriving DecidableEq, Repr

structure DefensiveStats where
  team_id : Option String
  team_name : Option String
  player_id : Option String
  player_name : Option String
  player_headshot_url : Option String
  total_tackles : Option Int
  solo_tackles : Option Int
  sacks : Option Int
  tackles_for_loss : Option Int
  passes_defended : Option Int
  qb_hits : Option Int
  defensive_touchdowns : Option Int
deriving DecidableEq, Repr

structure InterceptionsStats where
  team_id : Option String
  team_name : Option String
  player_id : Option String
  player_name : Option String
  player_headshot_url : Option String
  interceptions : Option Int
  interception_yards : Option Int
  interception_touchdowns : Option Int
deriving DecidableEq, Repr

/-- Stored `passing_stats` row (the `player_id` key lives in the table
entry; `id`/timestamp columns carry no pipeline content and are omitted). -/
structure PassingRow where
  team_id : Option String
  team_name : Option String
  player_name : Option String
  player_headshot_url : Option String
  completions_attempts : Option String
  passing_yards : Option Int
  passing_touchdowns : Option Int
  interceptions : Option Int
  sacks : Option Int
deriving DecidableEq, Repr

structure RushingRow where
  team_id : Option String
  team_name : Option String
  player_name : Option String
  player_headshot_url : Option String
  rushing_attempts : Option Int
  rushing_yards : Option Int
  rushing_touchdowns : Option Int
  longest_run : Option Int
deriving DecidableEq, Repr

structure ReceivingRow where
  team_id : Option String
  team_name : Option String
  player_name : Option String
  player_headshot_url : Option String
  receptions : Option Int
  receiving_yards : Option Int
  receiving_touchdowns : Option Int
  longest_reception : Option Int
  targets : Option Int
deriving DecidableEq, Repr

structure FumblesRow where
  team_id : Option String
  team_name : Option String
  player_name : Option String
  player_headshot_url : Option String
  fumbles : Option Int
  fumbles_lost : Option Int
  fumbles_recovered : Option Int
deriving DecidableEq, Repr

structure DefensiveRow where
  team_id : Option String
  team_name : Option String
  player_name : Option String
  player_headshot_url : Option String
  total_tackles : Option Int
  solo_tackles : Option Int
  sacks : Option Int
  tackles_for_loss : Option Int
  passes_defended : Option Int
  qb_hits : Option Int
  defensive_touchdowns : Option Int
deriving DecidableEq, Repr

structure InterceptionsRow where
  team_id : Option String
  team_name : Option String
  player_name : Option String
  player_headshot_url : Option String
  interceptions : Option Int
  interception_yards : Option Int
  interception_touchdowns : Option Int
deriving DecidableEq, Repr

/-! ## Aggregate tables and the shared upsert loop -/

/-- An aggregate table: rows keyed by `player_id`.  Starting from a wiped
table, the upsert loop inserts each key at most once, matching the SQL
tables' key uniqueness. -/
abbrev Table (σ : Type) : Type := List (String × σ)

/-- The `SELECT ... WHERE player_id = pid` read: first row stored under the key. -/
def tableLookup {σ : Type} : Table σ → String → Option σ
  | [], _ => none
  | e :: rest, pid => if e.1 = pid then some e.2 else tableLookup rest pid

/-- The `UPDATE ... WHERE player_id = pid` write: replace every row stored under
the key. -/
def tableUpdate {σ : Type} : Table σ → String → σ → Table σ
  | [], _, _ => []
  | e :: rest, pid, row =>
    (if e.1 = pid then (e.1, row) else e) :: tableUpdate rest pid row

/-- The shared loop of the six `insert_*_stats` functions of
`database_connector.py`: iterate the incoming records, `continue` past a
record whose `player_id` is `None`, SELECT the stored row for the id,
take the UPDATE branch when a row exists and the INSERT branch otherwise,
and count every processed record.  The category-specific row computations
are the `newRow`/`mergeRow` parameters. -/
def upsertLoop {ρ σ : Type} (getPid : ρ → Option String) (newRow : ρ → σ)
    (mergeRow : σ → ρ → σ) : List ρ → Table σ → Table σ × Nat
  | [], t => (t, 0)
  | r :: rest, t =>
    match getPid r with
    | none => upsertLoop getPid newRow mergeRow rest t
    | some pid =>
      let t' :=
        match tableLookup t pid with
        | some row => tableUpdate t pid (mergeRow row r)
        | none => t ++ [(pid, newRow r)]
      let res := upsertLoop getPid newRow mergeRow rest t'
      (res.1, res.2 + 1)

/-! ## Per-category INSERT/UPDATE row computations and insert functions -/

/-- INSERT branch of `insert_passing_stats`: counting fields through
`_int_or_zero`, the completions/attempts string kept as-is. -/
def pass_new_row (r : PassingStats) : PassingRow :=
  { team_id := r.team_id
    team_name := r.team_name
    player_name := r.player_name
    player_headshot_url := r.player_headshot_url
    completions_attempts := r.completions_attempts
    passing_yards := some (int_or_zero r.passing_yards)
    passing_touchdowns := some (int_or_zero r.passing_touchdowns)
    interceptions := some (int_or_zero r.interceptions)
    sacks := some (int_or_zero r.sacks) }

/-- UPDATE branch of `insert_passing_stats`: numeric fields summed (stored
and incoming both through `_int_or_zero`), the completions string merged
with `_merge_completions`, identity fields overwritten. -/
def pass_merge_row (row : PassingRow) (r : PassingStats) : PassingRow :=
  { team_id := r.team_id
    team_name := r.team_name
    player_name := r.player_name
    player_headshot_url := r.player_headshot_url
    completions_attempts := merge_completions row.completions_attempts r.completions_attempts
    passing_yards := some (int_or_zero row.passing_yards + int_or_zero r.passing_yards)
    passing_touchdowns := some (int_or_zero row.passing_touchdowns + int_or_zero r.passing_touchdowns)
    interceptions := some (int_or_zero row.interceptions + int_or_zero r.interceptions)
    sacks := some (int_or_zero row.sacks + int_or_zero r.sacks) }

def insert_passing_stats (recs : List PassingStats) (t : Table PassingRow) :
    Table PassingRow × Nat :=
  upsertLoop (fun r => r.player_id) pass_new_row pass_merge_row recs t

/-- INSERT branch of `insert_rushing_stats`; `longest_run` is stored
verbatim (`_to_int` is the identity on the typed optional integer). -/
def rush_new_row (r : RushingStats) : RushingRow :=
  { team_id := r.team_id
    team_name := r.team_name
    player_name := r.player_name
    player_headshot_url := r.player_headshot_url
    rushing_attempts := some (int_or_zero r.rushing_attempts)
    rushing_yards := some (int_or_zero r.rushing_yards)
    rushing_touchdowns := some (int_or_zero r.rushing_touchdowns)
    longest_run := r.longest_run }

/-- UPDATE branch of `insert_rushing_stats`: counting fields summed;
`longest_run` becomes `max(_to_int(row) or 0, incoming or 0)`. -/
def rush_merge_row (row : RushingRow) (r : RushingStats) : RushingRow :=
  { team_id := r.team_id
    team_name := r.team_name
    player_name := r.player_name
    player_headshot_url := r.player_headshot_url
    rushing_attempts := some (int_or_zero row.rushing_attempts + int_or_zero r.rushing_attempts)
    rushing_yards := some (int_or_zero row.rushing_yards + int_or_zero r.rushing_yards)
    rushing_touchdowns := some (int_or_zero row.rushing_touchdowns + int_or_zero r.rushing_touchdowns)
    longest_run := some (max (py_or_zero row.longest_run) (py_or_zero r.longest_run)) }

def insert_rushing_stats (recs : List RushingStats) (t : Table RushingRow) :
    Table RushingRow × Nat :=
  upsertLoop (fun r => r.player_id) rush_new_row rush_merge_row recs t

/-- INSERT branch of `insert_receiving_stats`. -/
def recv_new_row (r : ReceivingStats) : ReceivingRow :=
  { team_id := r.team_id
    team_name := r.team_name
    player_name := r.player_name
    player_headshot_url := r.player_headshot_url
    receptions := some (int_or_zero r.receptions)
    receiving_yards := some (int_or_zero r.receiving_yards)
    receiving_touchdowns := some (int_or_zero r.receiving_touchdowns)
    longest_reception := r.longest_reception
    targets := some (int_or_zero r.targets) }

/-- UPDATE branch of `insert_receiving_stats`. -/
def recv_merge_row (row : ReceivingRow) (r : ReceivingStats) : ReceivingRow :=
  { team_id := r.team_id
    team_name := r.team_name
    player_name := r.player_name
    player_headshot_url := r.player_headshot_url
    receptions := some (int_or_zero row.receptions + int_or_zero r.receptions)
    receiving_yards := some (int_or_zero row.receiving_yards + int_or_zero r.receiving_yards)
    receiving_touchdowns := some (int_or_zero row.receiving_touchdowns + int_or_zero r.receiving_touchdowns)
    longest_reception := some (max (py_or_zero row.longest_reception) (py_or_zero r.longest_reception))
    targets := some (int_or_zero row.targets + int_or_zero r.targets) }

def insert_receiving_stats (recs : List ReceivingStats) (t : Table ReceivingRow) :
    Table ReceivingRow × Nat :=
  upsertLoop (fun r => r.player_id) recv_new_row recv_merge_row recs t

/-- INSERT branch of `insert_fumbles_stats`. -/
def fum_new_row (r : FumblesStats) : FumblesRow :=
  { team_id := r.team_id
    team_name := r.team_name
    player_name := r.player_name
    player_headshot_url := r.player_headshot_url
    fumbles := some (int_or_zero r.fumbles)
    fumbles_lost := some (int_or_zero r.fumbles_lost)
    fumbles_recovered := some (int_or_zero r.fumbles_recovered) }

/-- UPDATE branch of `insert_fumbles_stats`. -/
def fum_merge_row (row : FumblesRow) (r : FumblesStats) : FumblesRow :=
  { team_id := r.team_id
    team_name := r.team_name
    player_name := r.player_name
    player_headshot_url := r.player_headshot_url
    fumbles := some (int_or_zero row.fumbles + int_or_zero r.fumbles)
    fumbles_lost := some (int_or_zero row.fumbles_lost + int_or_zero r.fumbles_lost)
    fumbles_recovered := some (int_or_zero row.fumbles_recovered + int_or_zero r.fumbles_recovered) }

def insert_fumbles_stats (recs : List FumblesStats) (t : Table FumblesRow) :
    Table FumblesRow × Nat :=
  upsertLoop (fun r => r.player_id) fum_new_row fum_merge_row recs t

/-- INSERT branch of `insert_defensive_stats`. -/
def def_new_row (r : DefensiveStats) : DefensiveRow :=
  { team_id := r.team_id
    team_name := r.team_name
    player_name := r.player_name
    player_headshot_url := r.player_headshot_url
    total_tackles := some (int_or_zero r.total_tackles)
    solo_tackles := some (int_or_zero r.solo_tackles)
    sacks := some (int_or_zero r.sacks)
    tackles_for_loss := some (int_or_zero r.tackles_for_loss)
    passes_defended := some (int_or_zero r.passes_defended)
    qb_hits := some (int_or_zero r.qb_hits)
    defensive_touchdowns := some (int_or_zero r.defensive_touchdowns) }

/-- UPDATE branch of `insert_defensive_stats`. -/
def def_merge_row (row : DefensiveRow) (r : DefensiveStats) : DefensiveRow :=
  { team_id := r.team_id
    team_name := r.team_name
    player_name := r.player_name
    player_headshot_url := r.player_headshot_url
    total_tackles := some (int_or_zero row.total_tackles + int_or_zero r.total_tackles)
    solo_tackles := some (int_or_zero row.solo_tackles + int_or_zero r.solo_tackles)
    sacks := some (int_or_zero row.sacks + int_or_zero r.sacks)
    tackles_for_loss := some (int_or_zero row.tackles_for_loss + int_or_zero r.tackles_for_loss)
    passes_defended := some (int_or_zero row.passes_defended + int_or_zero r.passes_defended)
    qb_hits := some (int_or_zero row.qb_hits + int_or_zero r.qb_hits)
    defensive_touchdowns := some (int_or_zero row.defensive_touchdowns + int_or_zero r.defensive_touchdowns) }

def insert_defensive_stats (recs : List DefensiveStats) (t : Table DefensiveRow) :
    Table DefensiveRow × Nat :=
  upsertLoop (fun r => r.player_id) def_new_row def_merge_row recs t

/-- INSERT branch of `insert_interceptions_stats`. -/
def icpt_new_row (r : InterceptionsStats) : InterceptionsRow :=
  { team_id := r.team_id
    team_name := r.team_name
    player_name := r.player_name
    player_headshot_url := r.player_headshot_url
    interceptions := some (int_or_zero r.interceptions)
    interception_yards := some (int_or_zero r.interception_yards)
    interception_touchdowns := some (int_or_zero r.interception_touchdowns) }

/-- UPDATE branch of `insert_interceptions_stats`. -/
def icpt_merge_row (row : InterceptionsRow) (r : InterceptionsStats) : InterceptionsRow :=
  { team_id := r.team_id
    team_name := r.team_name
    player_name := r.player_name
    player_headshot_url := r.player_headshot_url
    interceptions := some (int_or_zero row.interceptions + int_or_zero r.interceptions)
    interception_yards := some (int_or_zero row.interception_yards + int_or_zero r.interception_yards)
    interception_touchdowns := some (int_or_zero row.interception_touchdowns + int_or_zero r.interception_touchdowns) }

def insert_interceptions_stats (recs : List InterceptionsStats) (t : Table InterceptionsRow) :
    Table InterceptionsRow × Nat :=
  upsertLoop (fun r => r.player_id) icpt_new_row icpt_merge_row recs t

/-! ## All six tables together -/

/-- The six-list value produced by `get_player_stats` (positions 0..5 of
the returned list). -/
structure PlayerStatsLists where
  passing : List PassingStats
  rushing : List RushingStats
  receiving : List ReceivingStats
  fumbles : List FumblesStats
  defensive : List DefensiveStats
  interceptions : List InterceptionsStats
deriving DecidableEq, Repr

/-- The per-category processed-row counts returned by
`insert_all_player_stats`. -/
structure InsertCounts where
  passing : Nat
  rushing : Nat
  receiving : Nat
  fumbles : Nat
  defensive : Nat
  interceptions : Nat
deriving DecidableEq, Repr

/-- The whole aggregate store. -/
structure AllTables where
  passing : Table PassingRow
  rushing : Table RushingRow
  receiving : Table ReceivingRow
  fumbles : Table FumblesRow
  defensive : Table DefensiveRow
  interceptions : Table InterceptionsRow
deriving DecidableEq, Repr

/-- Effect of `wipe_all_stats_tables`: every category table emptied. -/
def emptyTables : AllTables :=
  { passing := [], rushing := [], receiving := [], fumbles := [],
    defensive := [], interceptions := [] }

/-- Model of `insert_all_player_stats` on the success path: the six category
batches in source order, each committing its own writes. -/
def insert_all_player_stats (ps : PlayerStatsLists) (db : AllTables) :
    AllTables × InsertCounts :=
  let p := insert_passing_stats ps.passing db.passing
  let r := insert_rushing_stats ps.rushing db.rushing
  let c := insert_receiving_stats ps.receiving db.receiving
  let f := insert_fumbles_stats ps.fumbles db.fumbles
  let d := insert_defensive_stats ps.defensive db.defensive
  let i := insert_interceptions_stats ps.interceptions db.interceptions
  ({ passing := p.1, rushing := r.1, receiving := c.1, fumbles := f.1,
     defensive := d.1, interceptions := i.1 },
   { passing := p.2, rushing := r.2, receiving := c.2, fumbles := f.2,
     defensive := d.2, interceptions := i.2 })

/-! ## Connection-level view: commit, rollback and fault injection

Each `insert_*_stats` call runs on one connection with
`autocommit=False`: its cursor writes become visible to its own later
SELECTs, are committed together at the end of the loop, and are rolled
back (leaving the previously committed table untouched) when any
statement raises, after which the exception propagates.  A storage fault
is injected as the index of the processed record whose write raises. -/

/-- The loop body under fault injection: `none` models the raised storage
error; `p` counts processed records as in the source. -/
def upsertRunTx {ρ σ : Type} (getPid : ρ → Option String) (newRow : ρ → σ)
    (mergeRow : σ → ρ → σ) (failAt : Option Nat) :
    List ρ → Table σ → Nat → Option (Table σ × Nat)
  | [], t, p => some (t, p)
  | r :: rest, t, p =>
    match getPid r with
    | none => upsertRunTx getPid newRow mergeRow failAt rest t p
    | some pid =>
      if failAt = some p then none
      else
        let t' :=
          match tableLookup t pid with
          | some row => tableUpdate t pid (mergeRow row r)
          | none => t ++ [(pid, newRow r)]
        upsertRunTx getPid newRow mergeRow failAt rest t' (p + 1)

/-- One `insert_*_stats` call seen at the connection level: success
commits the whole batch; a raised storage error rolls the batch back and
propagates (`.error ()`).  An empty input returns 0 before touching the
connection. -/
def upsertTx {ρ σ : Type} (getPid : ρ → Option String) (newRow : ρ → σ)
    (mergeRow : σ → ρ → σ) (failAt : Option Nat) (recs : List ρ) (t : Table σ) :
    Table σ × Except Unit Nat :=
  if recs.isEmpty then (t, .ok 0)
  else
    match upsertRunTx getPid newRow mergeRow failAt recs t 0 with
    | some res => (res.1, .ok res.2)
    | none => (t, .error ())

/-- Category-level fault selector: `fault = some (c, k)` makes the write
for the `k`-th processed record of category index `c` (0 = passing … 5 =
interceptions) raise. -/
def failFor (fault : Option (Nat × Nat)) (c : Nat) : Option Nat :=
  match fault with
  | some q => if q.1 = c then some q.2 else none
  | none => none

/-- Model of `insert_all_player_stats` at the connection level: the six category
batches in source order; each batch commits on its own; the first raised
storage error rolls back only its own batch, leaves the earlier
categories' committed batches in place, skips the remaining categories
and propagates. -/
def insert_all_player_stats_tx (fault : Option (Nat × Nat)) (ps : PlayerStatsLists)
    (db : AllTables) : AllTables × Except Unit InsertCounts :=
  let p := upsertTx (fun r => r.player_id) pass_new_row pass_merge_row
    (failFor fault 0) ps.passing db.passing
  match p.2 with
  | .error _ => ({ db with passing := p.1 }, .error ())
  | .ok np =>
    let r := upsertTx (fun r => r.player_id) rush_new_row rush_merge_row
      (failFor fault 1) ps.rushing db.rushing
    match r.2 with
    | .error _ => ({ db with passing := p.1, rushing := r.1 }, .error ())
    | .ok nr =>
      let c := upsertTx (fun r => r.player_id) recv_new_row recv_merge_row
        (failFor fault 2) ps.receiving db.receiving
      match c.2 with
      | .error _ => ({ db with passing := p.1, rushing := r.1, receiving := c.1 }, .error ())
      | .ok nc =>
        let f := upsertTx (fun r => r.player_id) fum_new_row fum_merge_row
          (failFor fault 3) ps.fumbles db.fumbles
        match f.2 with
        | .error _ =>
          ({ db with
              passing := p.1
              rushing := r.1
              receiving := c.1
              fumbles := f.1 }, .error ())
        | .ok nf =>
          let d := upsertTx (fun r => r.player_id) def_new_row def_merge_row
            (failFor fault 4) ps.defensive db.defensive
          match d.2 with
          | .error _ =>
            ({ db with
                passing := p.1
                rushing := r.1
                receiving := c.1
                fumbles := f.1
                defensive := d.1 }, .error ())
          | .ok nd =>
            let i := upsertTx (fun r => r.player_id) icpt_new_row icpt_merge_row
              (failFor fault 5) ps.interceptions db.interceptions
            match i.2 with
            | .error _ =>
              ({ db with
                  passing := p.1
                  rushing := r.1
                  receiving := c.1
                  fumbles := f.1
                  defensive := d.1
                  interceptions := i.1 }, .error ())
            | .ok ni =>
              ({ passing := p.1, rushing := r.1, receiving := c.1, fumbles := f.1,
                 defensive := d.1, interceptions := i.1 },
               .ok { passing := np, rushing := nr, receiving := nc, fumbles := nf,
                     defensive := nd, interceptions := ni })

/-! ## Extractor: the passing completions/attempts token -/

/-- The completions/attempts handling of `get_player_stats` (passing
branch): a string token containing a dash is kept verbatim; any other
token is `None` if absent and otherwise kept in its string form (`str` of
a string token is the token itself). -/
def passing_completions_token (tok : Option String) : Option String :=
  match tok with
  | none => none
  | some s => if s.data.contains '-' then some s else some s

/-! ## Season Compiler (`compile_season_stats`) -/

/-- External collaborators of one compilation run, with per-game storage
fault injection for the persistence layer. -/
structure Env where
  getGameIds : Int → Nat → Int → Except String (List String)
  fetchStats : String → Except String PlayerStatsLists
  insertFault : String → Option (Nat × Nat)

/-- Observable network/storage activity, recorded to state "no activity
before validation" claims. -/
inductive Ev where
  | wipeEv : Ev
  | discoverEv : Nat → Ev
  | fetchEv : String → Ev
deriving DecidableEq, Repr

/-- Successful-run summary: the final aggregate store and the per-game
warnings `(game id, week)` printed by the per-game exception handler. -/
structure RunResult where
  db : AllTables
  warnings : List (String × Nat)
deriving DecidableEq, Repr

/-- The per-week game loop: fetch a game's stats and insert them, with
the whole body under the source's `try ... except Exception` — any
failure, from the fetch or from the persistence layer, is recorded as a
warning for that game id and week and the loop continues. -/
def runGames (env : Env) (week : Nat) :
    List String → AllTables → List (String × Nat) → List Ev →
    AllTables × List (String × Nat) × List Ev
  | [], db, ws, evs => (db, ws, evs)
  | g :: rest, db, ws, evs =>
    let evs' := evs ++ [Ev.fetchEv g]
    match env.fetchStats g with
    | .error _ => runGames env week rest db (ws ++ [(g, week)]) evs'
    | .ok stats =>
      let res := insert_all_player_stats_tx (env.insertFault g) stats db
      match res.2 with
      | .error _ => runGames env week rest res.1 (ws ++ [(g, week)]) evs'
      | .ok _ => runGames env week rest res.1 ws evs'

/-- The week loop: game discovery is outside the per-game handler, so a
discovery failure propagates and aborts the run; the aborting error
carries the store as committed so far. -/
def runWeeks (env : Env) (season season_type : Int) :
    List Nat → AllTables → List (String × Nat) → List Ev →
    List Ev × Except (String × AllTables) RunResult
  | [], db, ws, evs => (evs, .ok { db := db, warnings := ws })
  | w :: rest, db, ws, evs =>
    let evs' := evs ++ [Ev.discoverEv w]
    match env.getGameIds season w season_type with
    | .error e => (evs', .error (e, db))
    | .ok gids =>
      let res := runGames env w gids db ws evs'
      runWeeks env season season_type rest res.1 res.2.1 res.2.2

/-- Transcription of `compile_season_stats` from the source: the four
parameter checks in order, then the wipe of all six tables, then weeks
1..end_week with per-game fault tolerance.  `db0` is the aggregate store
left over from earlier runs; the trace records every wipe, discovery and
fetch. -/
def compile_season_stats (env : Env) (db0 : AllTables) (season : Int)
    (end_week : Int) (season_type : Int) :
    List Ev × Except (String × AllTables) RunResult :=
  if end_week < 1 then
    ([], .error ("end_week must be an integer >= 1", db0))
  else if season_type ≠ 1 ∧ season_type ≠ 2 ∧ season_type ≠ 3 then
    ([], .error ("season_type must be 1 (preseason), 2 (regular season), or 3 (playoffs)", db0))
  else if season_type = 1 ∧ end_week > 4 then
    ([], .error ("Preseason (season_type=1) only has weeks 1-4", db0))
  else if season_type = 2 ∧ end_week > 18 then
    ([], .error ("Regular Season (season_type=2) only has weeks 1-18", db0))
  else if season_type = 3 ∧ end_week > 4 then
    ([], .error ("Playoffs (season_type=3) only has weeks 1-4", db0))
  else
    let weeks := (List.range end_week.toNat).map (fun k => k + 1)
    runWeeks env season season_type weeks emptyTables [] [Ev.wipeEv]

/-! ## Generic lemmas about the upsert loop -/

/-- One record's effect on the row stored under its key. -/
def rowStep {ρ σ : Type} (newRow : ρ → σ) (mergeRow : σ → ρ → σ)
    (st : Option σ) (r : ρ) : Option σ :=
  match st with
  | none => some (newRow r)
  | some row => some (mergeRow row r)

theorem tableLookup_update_self {σ : Type} (t : Table σ) (pid : String) (v : σ) :
    tableLookup (tableUpdate t pid v) pid = (tableLookup t pid).map (fun _ => v) := by
  induction t with
  | nil => rfl
  | cons e rest ih =>
    by_cases h : e.1 = pid
    · simp [tableUpdate, tableLookup, h]
    · simp [tableUpdate, tableLookup, h, ih]

theorem tableLookup_update_ne {σ : Type} (t : Table σ) (q pid : String) (v : σ)
    (h : q ≠ pid) : tableLookup (tableUpdate t q v) pid = tableLookup t pid := by
  induction t with
  | nil => rfl
  | cons e rest ih =>
    by_cases he : e.1 = q
    · have hp : e.1 ≠ pid := by rw [he]; exact h
      simp [tableUpdate, tableLookup, he, hp, h, ih]
    · simp [tableUpdate, tableLookup, he, ih]

theorem tableLookup_append_one {σ : Type} (t : Table σ) (q pid : String) (v : σ) :
    tableLookup (t ++ [(q, v)]) pid =
      match tableLookup t pid with
      | some row => some row
      | none => if q = pid then some v else none := by
  induction t with
  | nil => simp [tableLookup]
  | cons e rest ih =>
    by_cases hp : e.1 = pid
    · simp [tableLookup, hp]
    · simp [tableLookup, hp, ih]

/-- Localization: the row stored for one key after an `insert_*_stats`
batch is the fold of the per-record step over exactly that key's records,
started from the previously stored row. -/
theorem upsertLoop_lookup {ρ σ : Type} (getPid : ρ → Option String) (newRow : ρ → σ)
    (mergeRow : σ → ρ → σ) (pid : String) :
    ∀ (recs : List ρ) (t : Table σ),
      tableLookup (upsertLoop getPid newRow mergeRow recs t).1 pid =
        (recs.filter (fun r => decide (getPid r = some pid))).foldl
          (rowStep newRow mergeRow) (tableLookup t pid) := by
  intro recs
  induction recs with
  | nil => intro t; rfl
  | cons r rest ih =>
    intro t
    rcases hg : getPid r with _ | q
    · simp only [upsertLoop, hg]
      rw [ih]
      simp [hg]
    · by_cases hq : q = pid
      · subst hq
        rcases hl : tableLookup t q with _ | row
        · simp only [upsertLoop, hg, hl]
          rw [ih, tableLookup_append_one, hl]
          simp [hg, rowStep, hl]
        · simp only [upsertLoop, hg, hl]
          rw [ih, tableLookup_update_self, hl]
          simp [hg, rowStep, hl]
      · rcases hl : tableLookup t q with _ | row
        · simp only [upsertLoop, hg, hl]
          rw [ih, tableLookup_append_one]
          cases hpp : tableLookup t pid <;> simp [hq, hg, hpp]
        · simp only [upsertLoop, hg, hl]
          rw [ih, tableLookup_update_ne t q pid _ hq]
          simp [hg, hq]

/-- The processed-row count of a batch is the number of records carrying
a player id. -/
theorem upsertLoop_count {ρ σ : Type} (getPid : ρ → Option String) (newRow : ρ → σ)
    (mergeRow : σ → ρ → σ) :
    ∀ (recs : List ρ) (t : Table σ),
      (upsertLoop getPid newRow mergeRow recs t).2 =
        (recs.filter (fun r => (getPid r).isSome)).length := by
  intro recs
  induction recs with
  | nil => intro t; rfl
  | cons r rest ih =>
    intro t
    rcases hg : getPid r with _ | q
    · simp only [upsertLoop, hg, List.filter_cons, Option.isSome_none, Bool.false_eq_true,
        if_false]
      exact ih t
    · simp only [upsertLoop, hg, List.filter_cons, Option.isSome_some, if_true,
        List.length_cons]
      rw [ih]

/-- Records without a player id are silently skipped: a batch behaves
exactly like the batch with those records removed, in the resulting table
and in the returned count alike. -/
theorem upsertLoop_skip_none {ρ σ : Type} (getPid : ρ → Option String) (newRow : ρ → σ)
    (mergeRow : σ → ρ → σ) :
    ∀ (recs : List ρ) (t : Table σ),
      upsertLoop getPid newRow mergeRow recs t =
        upsertLoop getPid newRow mergeRow
          (recs.filter (fun r => (getPid r).isSome)) t := by
  intro recs
  induction recs with
  | nil => intro t; rfl
  | cons r rest ih =>
    intro t
    rcases hg : getPid r with _ | q
    · simp only [upsertLoop, hg, List.filter_cons, Option.isSome_none, Bool.false_eq_true,
        if_false]
      exact ih t
    · simp only [upsertLoop, hg, List.filter_cons, Option.isSome_some, if_true]
      rw [ih]

/-- A season's worth of per-game batches for one category, applied in
order to a table. -/
def upsertBatches {ρ σ : Type} (getPid : ρ → Option String) (newRow : ρ → σ)
    (mergeRow : σ → ρ → σ) (batches : List (List ρ)) (t : Table σ) : Table σ :=
  batches.foldl (fun t b => (upsertLoop getPid newRow mergeRow b t).1) t

/-- Localization across batches: only a key's own records matter, in
arrival order, regardless of how they were grouped into games. -/
theorem upsertBatches_lookup {ρ σ : Type} (getPid : ρ → Option String) (newRow : ρ → σ)
    (mergeRow : σ → ρ → σ) (pid : String) :
    ∀ (batches : List (List ρ)) (t : Table σ),
      tableLookup (upsertBatches getPid newRow mergeRow batches t) pid =
        (batches.flatten.filter (fun r => decide (getPid r = some pid))).foldl
          (rowStep newRow mergeRow) (tableLookup t pid) := by
  intro batches
  induction batches with
  | nil => intro t; rfl
  | cons b bs ih =>
    intro t
    simp only [upsertBatches, List.foldl_cons, List.flatten_cons, List.filter_append,
      List.foldl_append]
    rw [show (bs.foldl (fun t b => (upsertLoop getPid newRow mergeRow b t).1)
        ((upsertLoop getPid newRow mergeRow b t).1)) =
        upsertBatches getPid newRow mergeRow bs
          ((upsertLoop getPid newRow mergeRow b t).1) from rfl]
    rw [ih, upsertLoop_lookup]

/-- Generic additive-field lemma: if the INSERT branch stores the
incoming value through `_int_or_zero` and the UPDATE branch adds the two
`_int_or_zero` values, the fold starting from an existing stored value
accumulates the sum. -/
theorem foldl_rowStep_add_some {ρ σ : Type} (newRow : ρ → σ) (mergeRow : σ → ρ → σ)
    (frec : ρ → Option Int) (frow : σ → Option Int)
    (hmerge : ∀ row r, frow (mergeRow row r) =
      some (int_or_zero (frow row) + int_or_zero (frec r))) :
    ∀ (l : List ρ) (row : σ) (v : Int), frow row = some v →
      ∃ row', l.foldl (rowStep newRow mergeRow) (some row) = some row' ∧
        frow row' = some (v + (l.map (fun r => int_or_zero (frec r))).sum) := by
  intro l
  induction l with
  | nil =>
    intro row v hv
    exact ⟨row, rfl, by simpa using hv⟩
  | cons r rest ih =>
    intro row v hv
    have hstep : frow (mergeRow row r) = some (v + int_or_zero (frec r)) := by
      rw [hmerge, hv]; rfl
    obtain ⟨row', h1, h2⟩ := ih (mergeRow row r) _ hstep
    refine ⟨row', ?_, ?_⟩
    · simpa [rowStep] using h1
    · rw [h2]; simp [add_assoc]

/-- Additive field, from an empty slot: the final stored value is the sum
of the records' `_int_or_zero` values, and no row exists without a
record. -/
theorem foldl_rowStep_add {ρ σ : Type} (newRow : ρ → σ) (mergeRow : σ → ρ → σ)
    (frec : ρ → Option Int) (frow : σ → Option Int)
    (hnew : ∀ r, frow (newRow r) = some (int_or_zero (frec r)))
    (hmerge : ∀ row r, frow (mergeRow row r) =
      some (int_or_zero (frow row) + int_or_zero (frec r))) :
    ∀ (l : List ρ),
      (l.foldl (rowStep newRow mergeRow) none).map frow =
        if l.isEmpty then none
        else some (some ((l.map (fun r => int_or_zero (frec r))).sum)) := by
  intro l
  cases l with
  | nil => rfl
  | cons r rest =>
    obtain ⟨row', h1, h2⟩ :=
      foldl_rowStep_add_some newRow mergeRow frec frow hmerge rest (newRow r) _ (hnew r)
    simp only [List.foldl_cons, rowStep, h1, List.isEmpty_cons, Bool.false_eq_true,
      if_false]
    simp [h2]

/-- Generic max-field lemma, continuing from a stored row: the UPDATE
branch replaces the stored value by `max(stored or 0, incoming or 0)`. -/
theorem foldl_rowStep_max_some {ρ σ : Type} (newRow : ρ → σ) (mergeRow : σ → ρ → σ)
    (frec : ρ → Option Int) (frow : σ → Option Int)
    (hmerge : ∀ row r, frow (mergeRow row r) =
      some (max (py_or_zero (frow row)) (py_or_zero (frec r)))) :
    ∀ (l : List ρ) (row : σ) (v : Int), frow row = some v →
      ∃ row', l.foldl (rowStep newRow mergeRow) (some row) = some row' ∧
        frow row' = some (l.foldl (fun a r => max a (py_or_zero (frec r))) v) := by
  intro l
  induction l with
  | nil =>
    intro row v hv
    exact ⟨row, rfl, by simpa using hv⟩
  | cons r rest ih =>
    intro row v hv
    have hstep : frow (mergeRow row r) = some (max v (py_or_zero (frec r))) := by
      rw [hmerge, hv]; rfl
    obtain ⟨row', h1, h2⟩ := ih (mergeRow row r) _ hstep
    refine ⟨row', ?_, ?_⟩
    · simpa [rowStep] using h1
    · rw [h2]; simp

/-- The value a `longest_*` column ends up with, as a function of the
arriving per-record values: a single value is stored verbatim (possibly
absent); from the second on, the running `max` of the `or 0` coercions. -/
def longestFold (vals : List (Option Int)) : Option (Option Int) :=
  match vals with
  | [] => none
  | [v] => some v
  | v :: rest =>
    some (some (rest.foldl (fun a x => max a (py_or_zero x)) (py_or_zero v)))

/-- Max field from an empty slot: the stored value is `longestFold` of
the records' values. -/
theorem foldl_rowStep_max {ρ σ : Type} (newRow : ρ → σ) (mergeRow : σ → ρ → σ)
    (frec : ρ → Option Int) (frow : σ → Option Int)
    (hnew : ∀ r, frow (newRow r) = frec r)
    (hmerge : ∀ row r, frow (mergeRow row r) =
      some (max (py_or_zero (frow row)) (py_or_zero (frec r)))) :
    ∀ (l : List ρ),
      (l.foldl (rowStep newRow mergeRow) none).map frow =
        longestFold (l.map frec) := by
  intro l
  cases l with
  | nil => rfl
  | cons r rest =>
    cases rest with
    | nil => simp [rowStep, hnew, longestFold]
    | cons x rest' =>
      have hstep : frow (mergeRow (newRow r) x) =
          some (max (py_or_zero (frec r)) (py_or_zero (frec x))) := by
        rw [hmerge, hnew]
      obtain ⟨row', h1, h2⟩ :=
        foldl_rowStep_max_some newRow mergeRow frec frow hmerge rest'
          (mergeRow (newRow r) x) _ hstep
      simp only [List.foldl_cons, rowStep, h1]
      simp [h2, longestFold, List.foldl_map]

/-! ## Relating the connection-level view to the success path -/

theorem upsertRunTx_none {ρ σ : Type} (getPid : ρ → Option String) (newRow : ρ → σ)
    (mergeRow : σ → ρ → σ) :
    ∀ (recs : List ρ) (t : Table σ) (p : Nat),
      upsertRunTx getPid newRow mergeRow none recs t p =
        some ((upsertLoop getPid newRow mergeRow recs t).1,
          p + (upsertLoop getPid newRow mergeRow recs t).2) := by
  intro recs
  induction recs with
  | nil => intro t p; simp [upsertRunTx, upsertLoop]
  | cons r rest ih =>
    intro t p
    rcases hg : getPid r with _ | q
    · simp only [upsertRunTx, upsertLoop, hg]
      exact ih t p
    · simp only [upsertRunTx, upsertLoop, hg, reduceCtorEq, if_false]
      rw [ih]
      cases hl : tableLookup t q <;> simp [hl] <;> omega

theorem upsertTx_none {ρ σ : Type} (getPid : ρ → Option String) (newRow : ρ → σ)
    (mergeRow : σ → ρ → σ) (recs : List ρ) (t : Table σ) :
    upsertTx getPid newRow mergeRow none recs t =
      ((upsertLoop getPid newRow mergeRow recs t).1,
       .ok (upsertLoop getPid newRow mergeRow recs t).2) := by
  cases recs with
  | nil => rfl
  | cons r rest =>
    simp only [upsertTx, List.isEmpty_cons, Bool.false_eq_true, if_false]
    rw [upsertRunTx_none]
    simp

/-- If the injected fault index lies inside the batch's processed
records, the loop raises before finishing. -/
theorem upsertRunTx_fail {ρ σ : Type} (getPid : ρ → Option String) (newRow : ρ → σ)
    (mergeRow : σ → ρ → σ) (k : Nat) :
    ∀ (recs : List ρ) (t : Table σ) (p : Nat), p ≤ k →
      k < p + (recs.filter (fun r => (getPid r).isSome)).length →
      upsertRunTx getPid newRow mergeRow (some k) recs t p = none := by
  intro recs
  induction recs with
  | nil =>
    intro t p hp hk
    simp at hk
    omega
  | cons r rest ih =>
    intro t p hp hk
    rcases hg : getPid r with _ | q
    · simp only [upsertRunTx, hg]
      refine ih t p hp ?_
      simpa [List.filter_cons, hg] using hk
    · by_cases hkp : k = p
      · subst hkp
        simp [upsertRunTx, hg]
      · have h1 : p + 1 ≤ k := by omega
        have h2 : k < (p + 1) + (rest.filter (fun r => (getPid r).isSome)).length := by
          have : (((r :: rest).filter (fun r => (getPid r).isSome)).length) =
              (rest.filter (fun r => (getPid r).isSome)).length + 1 := by
            simp [List.filter_cons, hg]
          omega
        simp only [upsertRunTx, hg, Option.some.injEq, hkp, if_false]
        exact ih _ (p + 1) h1 h2

/-- A batch hit by a storage fault is rolled back whole: the committed
table is unchanged and the error propagates. -/
theorem upsertTx_fail {ρ σ : Type} (getPid : ρ → Option String) (newRow : ρ → σ)
    (mergeRow : σ → ρ → σ) (k : Nat) (recs : List ρ) (t : Table σ)
    (hk : k < (recs.filter (fun r => (getPid r).isSome)).length) :
    upsertTx getPid newRow mergeRow (some k) recs t = (t, .error ()) := by
  cases recs with
  | nil => simp at hk
  | cons r rest =>
    simp only [upsertTx, List.isEmpty_cons, Bool.false_eq_true, if_false]
    rw [upsertRunTx_fail getPid newRow mergeRow k (r :: rest) t 0 (Nat.zero_le k)
      (by simpa using hk)]

theorem insert_all_tx_none (ps : PlayerStatsLists) (db : AllTables) :
    insert_all_player_stats_tx none ps db =
      ((insert_all_player_stats ps db).1, .ok (insert_all_player_stats ps db).2) := by
  simp only [insert_all_player_stats_tx, insert_all_player_stats, failFor,
    insert_passing_stats, insert_rushing_stats, insert_receiving_stats,
    insert_fumbles_stats, insert_defensive_stats, insert_interceptions_stats,
    upsertTx_none]

/-- The effect of a two-record batch for one key. -/
theorem upsertLoop_two_lookup {ρ σ : Type} (getPid : ρ → Option String) (newRow : ρ → σ)
    (mergeRow : σ → ρ → σ) (p : String) (r1 r2 : ρ) (t : Table σ)
    (h1 : getPid r1 = some p) (h2 : getPid r2 = some p) :
    tableLookup (upsertLoop getPid newRow mergeRow [r1, r2] t).1 p =
      some (match tableLookup t p with
            | none => mergeRow (newRow r1) r2
            | some row => mergeRow (mergeRow row r1) r2) := by
  rw [upsertLoop_lookup]
  simp only [List.filter_cons, h1, h2, Option.some.injEq, decide_eq_true_eq,
    List.filter_nil, if_pos rfl]
  cases tableLookup t p <;> simp [rowStep]

/-! ## Claims -/

/-- C2: `_merge_completions` implements exactly the specified
fraction-merge output rule — null when both sides decompose to nothing,
otherwise the sum of the left components (null as 0), in slash form
exactly when either side carries a right component — and satisfies the
spec's five-case truth table. -/
theorem C2_fraction_merge :
    (∀ e i : Option String, merge_completions e i = mergeFraction_spec e i) ∧
    merge_completions none (some "7/9") = some "7/9" ∧
    merge_completions (some "7") (some "3") = some "10" ∧
    merge_completions (some "10/15") (some "5/8") = some "15/23" ∧
    merge_completions (some "10/15") (some "7") = some "17/15" ∧
    merge_completions none none = none :=
  ⟨merge_completions_eq_spec, by decide, by decide, by decide, by decide, rfl⟩

/-- C10: in every one of the six insert functions, a record whose
player id is absent is silently skipped — the resulting table and the
returned processed count coincide with those for the batch with all such
records removed. -/
theorem C10_null_player_id_skipped :
    (∀ (recs : List PassingStats) (t : Table PassingRow),
      insert_passing_stats recs t =
        insert_passing_stats (recs.filter (fun r => r.player_id.isSome)) t) ∧
    (∀ (recs : List RushingStats) (t : Table RushingRow),
      insert_rushing_stats recs t =
        insert_rushing_stats (recs.filter (fun r => r.player_id.isSome)) t) ∧
    (∀ (recs : List ReceivingStats) (t : Table ReceivingRow),
      insert_receiving_stats recs t =
        insert_receiving_stats (recs.filter (fun r => r.player_id.isSome)) t) ∧
    (∀ (recs : List FumblesStats) (t : Table FumblesRow),
      insert_fumbles_stats recs t =
        insert_fumbles_stats (recs.filter (fun r => r.player_id.isSome)) t) ∧
    (∀ (recs : List DefensiveStats) (t : Table DefensiveRow),
      insert_defensive_stats recs t =
        insert_defensive_stats (recs.filter (fun r => r.player_id.isSome)) t) ∧
    (∀ (recs : List InterceptionsStats) (t : Table InterceptionsRow),
      insert_interceptions_stats recs t =
        insert_interceptions_stats (recs.filter (fun r => r.player_id.isSome)) t) := by
  refine ⟨?_, ?_, ?_, ?_, ?_, ?_⟩ <;> intro recs t <;>
    exact upsertLoop_skip_none _ _ _ recs t

/-- C8: merging two same-key records in any category overwrites the
stored identity/display fields with the second record's values —
last-write-wins, regardless of what was stored before. -/
theorem C8_identity_last_write_wins :
    (∀ (t : Table PassingRow) (p : String) (r1 r2 : PassingStats),
      r1.player_id = some p → r2.player_id = some p →
      (tableLookup (insert_passing_stats [r1, r2] t).1 p).map
        (fun row => (row.team_id, row.team_name, row.player_name, row.player_headshot_url)) =
      some (r2.team_id, r2.team_name, r2.player_name, r2.player_headshot_url)) ∧
    (∀ (t : Table RushingRow) (p : String) (r1 r2 : RushingStats),
      r1.player_id = some p → r2.player_id = some p →
      (tableLookup (insert_rushing_stats [r1, r2] t).1 p).map
        (fun row => (row.team_id, row.team_name, row.player_name, row.player_headshot_url)) =
      some (r2.team_id, r2.team_name, r2.player_name, r2.player_headshot_url)) ∧
    (∀ (t : Table ReceivingRow) (p : String) (r1 r2 : ReceivingStats),
      r1.player_id = some p → r2.player_id = some p →
      (tableLookup (insert_receiving_stats [r1, r2] t).1 p).map
        (fun row => (row.team_id, row.team_name, row.player_name, row.player_headshot_url)) =
      some (r2.team_id, r2.team_name, r2.player_name, r2.player_headshot_url)) ∧
    (∀ (t : Table FumblesRow) (p : String) (r1 r2 : FumblesStats),
      r1.player_id = some p → r2.player_id = some p →
      (tableLookup (insert_fumbles_stats [r1, r2] t).1 p).map
        (fun row => (row.team_id, row.team_name, row.player_name, row.player_headshot_url)) =
      some (r2.team_id, r2.team_name, r2.player_name, r2.player_headshot_url)) ∧
    (∀ (t : Table DefensiveRow) (p : String) (r1 r2 : DefensiveStats),
      r1.player_id = some p → r2.player_id = some p →
      (tableLookup (insert_defensive_stats [r1, r2] t).1 p).map
        (fun row => (row.team_id, row.team_name, row.player_name, row.player_headshot_url)) =
      some (r2.team_id, r2.team_name, r2.player_name, r2.player_headshot_url)) ∧
    (∀ (t : Table InterceptionsRow) (p : String) (r1 r2 : InterceptionsStats),
      r1.player_id = some p → r2.player_id = some p →
      (tableLookup (insert_interceptions_stats [r1, r2] t).1 p).map
        (fun row => (row.team_id, row.team_name, row.player_name, row.player_headshot_url)) =
      some (r2.team_id, r2.team_name, r2.player_name, r2.player_headshot_url)) := by
  refine ⟨?_, ?_, ?_, ?_, ?_, ?_⟩ <;> intro t p r1 r2 h1 h2 <;>
    [rw [insert_passing_stats, upsertLoop_two_lookup _ _ _ p r1 r2 t h1 h2];
     rw [insert_rushing_stats, upsertLoop_two_lookup _ _ _ p r1 r2 t h1 h2];
     rw [insert_receiving_stats, upsertLoop_two_lookup _ _ _ p r1 r2 t h1 h2];
     rw [insert_fumbles_stats, upsertLoop_two_lookup _ _ _ p r1 r2 t h1 h2];
     rw [insert_defensive_stats, upsertLoop_two_lookup _ _ _ p r1 r2 t h1 h2];
     rw [insert_interceptions_stats, upsertLoop_two_lookup _ _ _ p r1 r2 t h1 h2]] <;>
    cases tableLookup t p <;> rfl

/-! Concrete same-player records (two games, different team names) used
to instantiate the last-write-wins theorem. -/

def pxA : PassingStats :=
  ⟨some "1", some "Alpha", some "p1", some "QB One", none, some "10/15",
   some 120, some 1, some 0, some 2⟩

def pxB : PassingStats :=
  ⟨some "2", some "Beta", some "p1", some "QB One", none, some "5/8",
   some 80, some 0, some 1, some 0⟩

def rxA : RushingStats :=
  ⟨some "1", some "Alpha", some "p1", some "RB One", none, some 10, some 40, some 0, some 12⟩

def rxB : RushingStats :=
  ⟨some "2", some "Beta", some "p1", some "RB One", none, some 8, some 33, some 1, some 9⟩

def cxA : ReceivingStats :=
  ⟨some "1", some "Alpha", some "p1", some "WR One", none, some 4, some 51, some 0, some 22, some 6⟩

def cxB : ReceivingStats :=
  ⟨some "2", some "Beta", some "p1", some "WR One", none, some 2, some 17, some 1, some 11, some 3⟩

def fxA : FumblesStats :=
  ⟨some "1", some "Alpha", some "p1", some "FB One", none, some 1, some 1, some 0⟩

def fxB : FumblesStats :=
  ⟨some "2", some "Beta", some "p1", some "FB One", none, some 0, some 0, some 1⟩

def dxA : DefensiveStats :=
  ⟨some "1", some "Alpha", some "p1", some "LB One", none, some 7, some 5, some 1,
   some 2, some 1, some 2, some 0⟩

def dxB : DefensiveStats :=
  ⟨some "2", some "Beta", some "p1", some "LB One", none, some 4, some 3, some 0,
   some 1, some 0, some 1, some 0⟩

def ixA : InterceptionsStats :=
  ⟨some "1", some "Alpha", some "p1", some "CB One", none, some 1, some 12, some 0⟩

def ixB : InterceptionsStats :=
  ⟨some "2", some "Beta", some "p1", some "CB One", none, some 1, some 45, some 1⟩

/-- Witness for C8 at concrete two-game inputs in every category. -/
theorem C8_identity_last_write_wins_witness :
    ((tableLookup (insert_passing_stats [pxA, pxB] []).1 "p1").map
      (fun row => (row.team_id, row.team_name, row.player_name, row.player_headshot_url)) =
      some (pxB.team_id, pxB.team_name, pxB.player_name, pxB.player_headshot_url)) ∧
    ((tableLookup (insert_rushing_stats [rxA, rxB] []).1 "p1").map
      (fun row => (row.team_id, row.team_name, row.player_name, row.player_headshot_url)) =
      some (rxB.team_id, rxB.team_name, rxB.player_name, rxB.player_headshot_url)) ∧
    ((tableLookup (insert_receiving_stats [cxA, cxB] []).1 "p1").map
      (fun row => (row.team_id, row.team_name, row.player_name, row.player_headshot_url)) =
      some (cxB.team_id, cxB.team_name, cxB.player_name, cxB.player_headshot_url)) ∧
    ((tableLookup (insert_fumbles_stats [fxA, fxB] []).1 "p1").map
      (fun row => (row.team_id, row.team_name, row.player_name, row.player_headshot_url)) =
      some (fxB.team_id, fxB.team_name, fxB.player_name, fxB.player_headshot_url)) ∧
    ((tableLookup (insert_defensive_stats [dxA, dxB] []).1 "p1").map
      (fun row => (row.team_id, row.team_name, row.player_name, row.player_headshot_url)) =
      some (dxB.team_id, dxB.team_name, dxB.player_name, dxB.player_headshot_url)) ∧
    ((tableLookup (insert_interceptions_stats [ixA, ixB] []).1 "p1").map
      (fun row => (row.team_id, row.team_name, row.player_name, row.player_headshot_url)) =
      some (ixB.team_id, ixB.team_name, ixB.player_name, ixB.player_headshot_url)) :=
  ⟨C8_identity_last_write_wins.1 [] "p1" pxA pxB rfl rfl,
   C8_identity_last_write_wins.2.1 [] "p1" rxA rxB rfl rfl,
   C8_identity_last_write_wins.2.2.1 [] "p1" cxA cxB rfl rfl,
   C8_identity_last_write_wins.2.2.2.1 [] "p1" fxA fxB rfl rfl,
   C8_identity_last_write_wins.2.2.2.2.1 [] "p1" dxA dxB rfl rfl,
   C8_identity_last_write_wins.2.2.2.2.2 [] "p1" ixA ixB rfl rfl⟩

/-! ## A season's batches per category, from a freshly reset store -/

def passing_season (batches : List (List PassingStats)) : Table PassingRow :=
  upsertBatches (fun r => r.player_id) pass_new_row pass_merge_row batches []

def rushing_season (batches : List (List RushingStats)) : Table RushingRow :=
  upsertBatches (fun r => r.player_id) rush_new_row rush_merge_row batches []

def receiving_season (batches : List (List ReceivingStats)) : Table ReceivingRow :=
  upsertBatches (fun r => r.player_id) recv_new_row recv_merge_row batches []

def fumbles_season (batches : List (List FumblesStats)) : Table FumblesRow :=
  upsertBatches (fun r => r.player_id) fum_new_row fum_merge_row batches []

def defensive_season (batches : List (List DefensiveStats)) : Table DefensiveRow :=
  upsertBatches (fun r => r.player_id) def_new_row def_merge_row batches []

def interceptions_season (batches : List (List InterceptionsStats)) : Table InterceptionsRow :=
  upsertBatches (fun r => r.player_id) icpt_new_row icpt_merge_row batches []

/-- The records of a batch sequence belonging to one player id. -/
def keyRecs {ρ : Type} (getPid : ρ → Option String) (batches : List (List ρ))
    (pid : String) : List ρ :=
  batches.flatten.filter (fun r => decide (getPid r = some pid))

/-- C1: starting from a freshly reset store, for every category and every
player id, each counting field of the final stored aggregate is the sum of
that field over exactly that player's records across all batches, nulls
as 0; no row exists for a player with no records. -/
theorem C1_additive_counting_fields :
    (∀ (batches : List (List PassingStats)) (pid : String),
      ((tableLookup (passing_season batches) pid).map (fun row => row.passing_yards) =
        if (keyRecs (fun r => r.player_id) batches pid).isEmpty then none
        else some (some (((keyRecs (fun r => r.player_id) batches pid).map
          (fun r => int_or_zero r.passing_yards)).sum))) ∧
      ((tableLookup (passing_season batches) pid).map (fun row => row.passing_touchdowns) =
        if (keyRecs (fun r => r.player_id) batches pid).isEmpty then none
        else some (some (((keyRecs (fun r => r.player_id) batches pid).map
          (fun r => int_or_zero r.passing_touchdowns)).sum))) ∧
      ((tableLookup (passing_season batches) pid).map (fun row => row.interceptions) =
        if (keyRecs (fun r => r.player_id) batches pid).isEmpty then none
        else some (some (((keyRecs (fun r => r.player_id) batches pid).map
          (fun r => int_or_zero r.interceptions)).sum))) ∧
      ((tableLookup (passing_season batches) pid).map (fun row => row.sacks) =
        if (keyRecs (fun r => r.player_id) batches pid).isEmpty then none
        else some (some (((keyRecs (fun r => r.player_id) batches pid).map
          (fun r => int_or_zero r.sacks)).sum)))) ∧
    (∀ (batches : List (List RushingStats)) (pid : String),
      ((tableLookup (rushing_season batches) pid).map (fun row => row.rushing_attempts) =
        if (keyRecs (fun r => r.player_id) batches pid).isEmpty then none
        else some (some (((keyRecs (fun r => r.player_id) batches pid).map
          (fun r => int_or_zero r.rushing_attempts)).sum))) ∧
      ((tableLookup (rushing_season batches) pid).map (fun row => row.rushing_yards) =
        if (keyRecs (fun r => r.player_id) batches pid).isEmpty then none
        else some (some (((keyRecs (fun r => r.player_id) batches pid).map
          (fun r => int_or_zero r.rushing_yards)).sum))) ∧
      ((tableLookup (rushing_season batches) pid).map (fun row => row.rushing_touchdowns) =
        if (keyRecs (fun r => r.player_id) batches pid).isEmpty then none
        else some (some (((keyRecs (fun r => r.player_id) batches pid).map
          (fun r => int_or_zero r.rushing_touchdowns)).sum)))) ∧
    (∀ (batches : List (List ReceivingStats)) (pid : String),
      ((tableLookup (receiving_season batches) pid).map (fun row => row.receptions) =
        if (keyRecs (fun r => r.player_id) batches pid).isEmpty then none
        else some (some (((keyRecs (fun r => r.player_id) batches pid).map
          (fun r => int_or_zero r.receptions)).sum))) ∧
      ((tableLookup (receiving_season batches) pid).map (fun row => row.receiving_yards) =
        if (keyRecs (fun r => r.player_id) batches pid).isEmpty then none
        else some (some (((keyRecs (fun r => r.player_id) batches pid).map
          (fun r => int_or_zero r.receiving_yards)).sum))) ∧
      ((tableLookup (receiving_season batches) pid).map (fun row => row.receiving_touchdowns) =
        if (keyRecs (fun r => r.player_id) batches pid).isEmpty then none
        else some (some (((keyRecs (fun r => r.player_id) batches pid).map
          (fun r => int_or_zero r.receiving_touchdowns)).sum))) ∧
      ((tableLookup (receiving_season batches) pid).map (fun row => row.targets) =
        if (keyRecs (fun r => r.player_id) batches pid).isEmpty then none
        else some (some (((keyRecs (fun r => r.player_id) batches pid).map
          (fun r => int_or_zero r.targets)).sum)))) ∧
    (∀ (batches : List (List FumblesStats)) (pid : String),
      ((tableLookup (fumbles_season batches) pid).map (fun row => row.fumbles) =
        if (keyRecs (fun r => r.player_id) batches pid).isEmpty then none
        else some (some (((keyRecs (fun r => r.player_id) batches pid).map
          (fun r => int_or_zero r.fumbles)).sum))) ∧
      ((tableLookup (fumbles_season batches) pid).map (fun row => row.fumbles_lost) =
        if (keyRecs (fun r => r.player_id) batches pid).isEmpty then none
        else some (some (((keyRecs (fun r => r.player_id) batches pid).map
          (fun r => int_or_zero r.fumbles_lost)).sum))) ∧
      ((tableLookup (fumbles_season batches) pid).map (fun row => row.fumbles_recovered) =
        if (keyRecs (fun r => r.player_id) batches pid).isEmpty then none
        else some (some (((keyRecs (fun r => r.player_id) batches pid).map
          (fun r => int_or_zero r.fumbles_recovered)).sum)))) ∧
    (∀ (batches : List (List DefensiveStats)) (pid : String),
      ((tableLookup (defensive_season batches) pid).map (fun row => row.total_tackles) =
        if (keyRecs (fun r => r.player_id) batches pid).isEmpty then none
        else some (some (((keyRecs (fun r => r.player_id) batches pid).map
          (fun r => int_or_zero r.total_tackles)).sum))) ∧
      ((tableLookup (defensive_season batches) pid).map (fun row => row.solo_tackles) =
        if (keyRecs (fun r => r.player_id) batches pid).isEmpty then none
        else some (some (((keyRecs (fun r => r.player_id) batches pid).map
          (fun r => int_or_zero r.solo_tackles)).sum))) ∧
      ((tableLookup (defensive_season batches) pid).map (fun row => row.sacks) =
        if (keyRecs (fun r => r.player_id) batches pid).isEmpty then none
        else some (some (((keyRecs (fun r => r.player_id) batches pid).map
          (fun r => int_or_zero r.sacks)).sum))) ∧
      ((tableLookup (defensive_season batches) pid).map (fun row => row.tackles_for_loss) =
        if (keyRecs (fun r => r.player_id) batches pid).isEmpty then none
        else some (some (((keyRecs (fun r => r.player_id) batches pid).map
          (fun r => int_or_zero r.tackles_for_loss)).sum))) ∧
      ((tableLookup (defensive_season batches) pid).map (fun row => row.passes_defended) =
        if (keyRecs (fun r => r.player_id) batches pid).isEmpty then none
        else some (some (((keyRecs (fun r => r.player_id) batches pid).map
          (fun r => int_or_zero r.passes_defended)).sum))) ∧
      ((tableLookup (defensive_season batches) pid).map (fun row => row.qb_hits) =
        if (keyRecs (fun r => r.player_id) batches pid).isEmpty then none
        else some (some (((keyRecs (fun r => r.player_id) batches pid).map
          (fun r => int_or_zero r.qb_hits)).sum))) ∧
      ((tableLookup (defensive_season batches) pid).map (fun row => row.defensive_touchdowns) =
        if (keyRecs (fun r => r.player_id) batches pid).isEmpty then none
        else some (some (((keyRecs (fun r => r.player_id) batches pid).map
          (fun r => int_or_zero r.defensive_touchdowns)).sum)))) ∧
    (∀ (batches : List (List InterceptionsStats)) (pid : String),
      ((tableLookup (interceptions_season batches) pid).map (fun row => row.interceptions) =
        if (keyRecs (fun r => r.player_id) batches pid).isEmpty then none
        else some (some (((keyRecs (fun r => r.player_id) batches pid).map
          (fun r => int_or_zero r.interceptions)).sum))) ∧
      ((tableLookup (interceptions_season batches) pid).map (fun row => row.interception_yards) =
        if (keyRecs (fun r => r.player_id) batches pid).isEmpty then none
        else some (some (((keyRecs (fun r => r.player_id) batches pid).map
          (fun r => int_or_zero r.interception_yards)).sum))) ∧
      ((tableLookup (interceptions_season batches) pid).map (fun row => row.interception_touchdowns) =
        if (keyRecs (fun r => r.player_id) batches pid).isEmpty then none
        else some (some (((keyRecs (fun r => r.player_id) batches pid).map
          (fun r => int_or_zero r.interception_touchdowns)).sum)))) := by
  refine ⟨?_, ?_, ?_, ?_, ?_, ?_⟩ <;> intro batches pid <;>
    simp only [passing_season, rushing_season, receiving_season, fumbles_season,
      defensive_season, interceptions_season, keyRecs] <;>
    rw [upsertBatches_lookup]
  · exact ⟨foldl_rowStep_add pass_new_row pass_merge_row
        (fun r => r.passing_yards) (fun row => row.passing_yards)
        (fun r => rfl) (fun row r => rfl) _,
      foldl_rowStep_add pass_new_row pass_merge_row
        (fun r => r.passing_touchdowns) (fun row => row.passing_touchdowns)
        (fun r => rfl) (fun row r => rfl) _,
      foldl_rowStep_add pass_new_row pass_merge_row
        (fun r => r.interceptions) (fun row => row.interceptions)
        (fun r => rfl) (fun row r => rfl) _,
      foldl_rowStep_add pass_new_row pass_merge_row
        (fun r => r.sacks) (fun row => row.sacks)
        (fun r => rfl) (fun row r => rfl) _⟩
  · exact ⟨foldl_rowStep_add rush_new_row rush_merge_row
        (fun r => r.rushing_attempts) (fun row => row.rushing_attempts)
        (fun r => rfl) (fun row r => rfl) _,
      foldl_rowStep_add rush_new_row rush_merge_row
        (fun r => r.rushing_yards) (fun row => row.rushing_yards)
        (fun r => rfl) (fun row r => rfl) _,
      foldl_rowStep_add rush_new_row rush_merge_row
        (fun r => r.rushing_touchdowns) (fun row => row.rushing_touchdowns)
        (fun r => rfl) (fun row r => rfl) _⟩
  · exact ⟨foldl_rowStep_add recv_new_row recv_merge_row
        (fun r => r.receptions) (fun row => row.receptions)
        (fun r => rfl) (fun row r => rfl) _,
      foldl_rowStep_add recv_new_row recv_merge_row
        (fun r => r.receiving_yards) (fun row => row.receiving_yards)
        (fun r => rfl) (fun row r => rfl) _,
      foldl_rowStep_add recv_new_row recv_merge_row
        (fun r => r.receiving_touchdowns) (fun row => row.receiving_touchdowns)
        (fun r => rfl) (fun row r => rfl) _,
      foldl_rowStep_add recv_new_row recv_merge_row
        (fun r => r.targets) (fun row => row.targets)
        (fun r => rfl) (fun row r => rfl) _⟩
  · exact ⟨foldl_rowStep_add fum_new_row fum_merge_row
        (fun r => r.fumbles) (fun row => row.fumbles)
        (fun r => rfl) (fun row r => rfl) _,
      foldl_rowStep_add fum_new_row fum_merge_row
        (fun r => r.fumbles_lost) (fun row => row.fumbles_lost)
        (fun r => rfl) (fun row r => rfl) _,
      foldl_rowStep_add fum_new_row fum_merge_row
        (fun r => r.fumbles_recovered) (fun row => row.fumbles_recovered)
        (fun r => rfl) (fun row r => rfl) _⟩
  · exact ⟨foldl_rowStep_add def_new_row def_merge_row
        (fun r => r.total_tackles) (fun row => row.total_tackles)
        (fun r => rfl) (fun row r => rfl) _,
      foldl_rowStep_add def_new_row def_merge_row
        (fun r => r.solo_tackles) (fun row => row.solo_tackles)
        (fun r => rfl) (fun row r => rfl) _,
      foldl_rowStep_add def_new_row def_merge_row
        (fun r => r.sacks) (fun row => row.sacks)
        (fun r => rfl) (fun row r => rfl) _,
      foldl_rowStep_add def_new_row def_merge_row
        (fun r => r.tackles_for_loss) (fun row => row.tackles_for_loss)
        (fun r => rfl) (fun row r => rfl) _,
      foldl_rowStep_add def_new_row def_merge_row
        (fun r => r.passes_defended) (fun row => row.passes_defended)
        (fun r => rfl) (fun row r => rfl) _,
      foldl_rowStep_add def_new_row def_merge_row
        (fun r => r.qb_hits) (fun row => row.qb_hits)
        (fun r => rfl) (fun row r => rfl) _,
      foldl_rowStep_add def_new_row def_merge_row
        (fun r => r.defensive_touchdowns) (fun row => row.defensive_touchdowns)
        (fun r => rfl) (fun row r => rfl) _⟩
  · exact ⟨foldl_rowStep_add icpt_new_row icpt_merge_row
        (fun r => r.interceptions) (fun row => row.interceptions)
        (fun r => rfl) (fun row r => rfl) _,
      foldl_rowStep_add icpt_new_row icpt_merge_row
        (fun r => r.interception_yards) (fun row => row.interception_yards)
        (fun r => rfl) (fun row r => rfl) _,
      foldl_rowStep_add icpt_new_row icpt_merge_row
        (fun r => r.interception_touchdowns) (fun row => row.interception_touchdowns)
        (fun r => rfl) (fun row r => rfl) _⟩

/-- A rushing record with a null `longest_run`, as produced for a game in
which the source reported no longest-run token. -/
def rushNull : RushingStats :=
  ⟨none, none, some "p7", none, none, none, none, none, none⟩

/-- Counterexample for C3: after two records whose `longest_run` is null,
the stored aggregate's `longest_run` is 0, not absent — the UPDATE branch
coerces both sides with `or 0` before taking the max. -/
theorem C3_counterexample :
    ((tableLookup (insert_rushing_stats [rushNull, rushNull] []).1 "p7").map
       (fun row => row.longest_run) = some (some 0)) ∧
    ((tableLookup (insert_rushing_stats [rushNull, rushNull] []).1 "p7").map
       (fun row => row.longest_run) ≠ some none) := by
  decide

/-- C3 amended: for every player id, a single record stores its
`longest_*` value verbatim (absent stays absent); from the second record
on, the stored value is the running maximum of the records' values with
null taken as 0 — so after two or more all-null records the field holds
0 rather than staying absent, and negative values are clamped by the 0. -/
theorem C3_longest_fields_amended :
    (∀ (batches : List (List RushingStats)) (pid : String),
      (tableLookup (rushing_season batches) pid).map (fun row => row.longest_run) =
        longestFold ((keyRecs (fun r => r.player_id) batches pid).map
          (fun r => r.longest_run))) ∧
    (∀ (batches : List (List ReceivingStats)) (pid : String),
      (tableLookup (receiving_season batches) pid).map (fun row => row.longest_reception) =
        longestFold ((keyRecs (fun r => r.player_id) batches pid).map
          (fun r => r.longest_reception))) := by
  constructor <;> intro batches pid <;>
    simp only [rushing_season, receiving_season, keyRecs] <;>
    rw [upsertBatches_lookup] <;>
    rw [show ∀ {σ : Type} (p : String), tableLookup ([] : Table σ) p = none
      from fun _ => rfl]
  · exact foldl_rowStep_max rush_new_row rush_merge_row
      (fun r => r.longest_run) (fun row => row.longest_run)
      (fun r => rfl) (fun row r => rfl) _
  · exact foldl_rowStep_max recv_new_row recv_merge_row
      (fun r => r.longest_reception) (fun row => row.longest_reception)
      (fun r => rfl) (fun row r => rfl) _

/-- Two games' passing records for one player whose completions/attempts
tokens use the source's dash form. -/
def passDash1 : PassingStats :=
  ⟨none, none, some "p9", none, none, some "12-18", none, none, none, none⟩

def passDash2 : PassingStats :=
  ⟨none, none, some "p9", none, none, some "10-15", none, none, none, none⟩

/-- Counterexample for C5: dash-separated composite tokens are preserved
verbatim by the extractor, but `_merge_completions` splits on a slash
only, so both sides decompose to `(None, None)` and merging two such
records stores a null composite instead of the componentwise sums. -/
theorem C5_counterexample :
    passing_completions_token (some "12-18") = some "12-18" ∧
    passing_completions_token (some "10-15") = some "10-15" ∧
    (tableLookup (insert_passing_stats [passDash1, passDash2] []).1 "p9").map
      (fun row => row.completions_attempts) = some none := by
  decide

/-- C5 amended: every string token at index 0 is preserved verbatim by
the extractor; merging two records whose composite strings decompose to
full `(left, right)` pairs (the slash form) yields the composite whose
components are the componentwise sums; strings that decompose to
`(None, None)` — in particular the dash form — merge to a null
composite. -/
theorem C5_composite_merge_amended :
    (∀ s : String, passing_completions_token (some s) = some s) ∧
    (∀ (e i : Option String) (el er il ir : Int),
      to_pair e = (some el, some er) → to_pair i = (some il, some ir) →
      merge_completions e i = some (toString (el + il) ++ "/" ++ toString (er + ir))) ∧
    (∀ s t : String, to_pair (some s) = (none, none) → to_pair (some t) = (none, none) →
      merge_completions (some s) (some t) = none) := by
  refine ⟨?_, ?_, ?_⟩
  · intro s
    simp [passing_completions_token]
  · intro e i el er il ir he hi
    simp [merge_completions, he, hi, py_or_zero]
  · intro s t hs ht
    simp [merge_completions, hs, ht]

/-- Witness for the amended C5 at concrete tokens. -/
theorem C5_composite_merge_amended_witness :
    passing_completions_token (some "12/18") = some "12/18" ∧
    merge_completions (some "12/18") (some "10/15") =
      some (toString ((12 : Int) + 10) ++ "/" ++ toString ((18 : Int) + 15)) ∧
    merge_completions (some "ab") (some "cd") = none :=
  ⟨C5_composite_merge_amended.1 "12/18",
   C5_composite_merge_amended.2.1 (some "12/18") (some "10/15") 12 18 10 15
     (by decide) (by decide),
   C5_composite_merge_amended.2.2 "ab" "cd" (by decide) (by decide)⟩

/-- C6: any invalid `(season_type, end_week)` combination makes the
compilation entry point fail during the pre-flight checks, with no trace
of network or storage activity (no wipe, no discovery, no fetch) and the
aggregate store untouched. -/
theorem C6_validation_preflight (env : Env) (db0 : AllTables)
    (season end_week season_type : Int)
    (h : end_week < 1 ∨ (season_type ≠ 1 ∧ season_type ≠ 2 ∧ season_type ≠ 3) ∨
      (season_type = 1 ∧ end_week > 4) ∨ (season_type = 2 ∧ end_week > 18) ∨
      (season_type = 3 ∧ end_week > 4)) :
    (compile_season_stats env db0 season end_week season_type).1 = [] ∧
    ∃ msg, (compile_season_stats env db0 season end_week season_type).2 =
      .error (msg, db0) := by
  unfold compile_season_stats
  by_cases h0 : end_week < 1
  · rw [if_pos h0]
    exact ⟨rfl, _, rfl⟩
  rw [if_neg h0]
  rcases h with h | h | h | h | h
  · exact absurd h h0
  · rw [if_pos h]
    exact ⟨rfl, _, rfl⟩
  · rw [if_neg (by simp [h.1]), if_pos h]
    exact ⟨rfl, _, rfl⟩
  · rw [if_neg (by simp [h.1]), if_neg (by simp [h.1]), if_pos h]
    exact ⟨rfl, _, rfl⟩
  · rw [if_neg (by simp [h.1]), if_neg (by simp [h.1]), if_neg (by simp [h.1]), if_pos h]
    exact ⟨rfl, _, rfl⟩

/-- An environment that would notice any contact: discovery returns no
games and every fetch fails. -/
def envC6 : Env :=
  ⟨fun _ _ _ => .ok [], fun _ => .error "offline", fun _ => none⟩

/-- Witness for C6 at the spec's two named invalid inputs. -/
theorem C6_validation_preflight_witness :
    ((compile_season_stats envC6 emptyTables 2025 5 1).1 = [] ∧
      ∃ msg, (compile_season_stats envC6 emptyTables 2025 5 1).2 =
        .error (msg, emptyTables)) ∧
    ((compile_season_stats envC6 emptyTables 2025 19 2).1 = [] ∧
      ∃ msg, (compile_season_stats envC6 emptyTables 2025 19 2).2 =
        .error (msg, emptyTables)) :=
  ⟨C6_validation_preflight envC6 emptyTables 2025 5 1
      (Or.inr (Or.inr (Or.inl ⟨rfl, by norm_num⟩))),
   C6_validation_preflight envC6 emptyTables 2025 19 2
      (Or.inr (Or.inr (Or.inr (Or.inl ⟨rfl, by norm_num⟩))))⟩

/-- C7: in a run over three games whose middle fetch fails, the failure
is recorded as the run's only warning, keyed by that game id and its
week; the final aggregates are exactly games 1 and 3 merged in order into
the freshly reset store; and the run completes without raising. -/
theorem C7_game_failure_tolerated (env : Env) (db0 : AllTables) (season : Int)
    (g1 g2 g3 : String) (p1 p3 : PlayerStatsLists) (e2 : String)
    (hids : env.getGameIds season 1 2 = .ok [g1, g2, g3])
    (h1 : env.fetchStats g1 = .ok p1)
    (h2 : env.fetchStats g2 = .error e2)
    (h3 : env.fetchStats g3 = .ok p3)
    (f1 : env.insertFault g1 = none)
    (f3 : env.insertFault g3 = none) :
    (compile_season_stats env db0 season 1 2).2 =
      .ok { db := (insert_all_player_stats p3
              ((insert_all_player_stats p1 emptyTables).1)).1,
            warnings := [(g2, 1)] } := by
  unfold compile_season_stats
  rw [if_neg (by norm_num), if_neg (by norm_num), if_neg (by norm_num),
    if_neg (by norm_num), if_neg (by norm_num)]
  simp only [show ((1 : Int).toNat) = 1 from rfl, show List.range 1 = [0] from rfl,
    List.map_cons, List.map_nil]
  simp only [runWeeks, runGames, hids, h1, h2, h3, f1, f3, insert_all_tx_none]
  simp

/-- The game payload used by the concrete scenarios: one passing record
for player `p1`. -/
def psOnePass : PlayerStatsLists :=
  ⟨[⟨none, some "Gamma", some "p1", none, none, some "10/15", some 100, some 1,
     some 0, some 1⟩], [], [], [], [], []⟩

/-- Three games in week 1; fetching the middle one fails. -/
def envC7 : Env :=
  ⟨fun _ _ _ => .ok ["gA", "gB", "gC"],
   fun g => if g = "gB" then .error "fetch failed" else .ok psOnePass,
   fun _ => none⟩

/-- Witness for C7 at the concrete three-game environment. -/
theorem C7_game_failure_tolerated_witness :
    (compile_season_stats envC7 emptyTables 2025 1 2).2 =
      .ok { db := (insert_all_player_stats psOnePass
              ((insert_all_player_stats psOnePass emptyTables).1)).1,
            warnings := [("gB", 1)] } :=
  C7_game_failure_tolerated envC7 emptyTables 2025 "gA" "gB" "gC" psOnePass psOnePass
    "fetch failed" rfl rfl rfl rfl rfl rfl

/-- Storage always fails while writing the first passing record. -/
def envC4 : Env :=
  ⟨fun _ _ _ => .ok ["gX"],
   fun _ => .ok psOnePass,
   fun _ => some (0, 0)⟩

/-- Counterexample for C4: a persistence failure during the game's write
batch does not abort the run — the run completes with `.ok`, the failure
demoted to the per-game warning, because the per-game handler catches
every exception including storage errors. -/
theorem C4_counterexample :
    (compile_season_stats envC4 emptyTables 2025 1 2).2 =
      .ok { db := emptyTables, warnings := [("gX", 1)] } := rfl

/-- C4 amended: a persistence failure during a game's write batch is
caught by the per-game handler like a fetch failure: the failing
category's batch is rolled back, the game is recorded as a warning keyed
by game id and week, and the run continues with the next game and
completes without re-raising. -/
theorem C4_persistence_failure_warned (env : Env) (db0 : AllTables) (season : Int)
    (gA gB : String) (pA pB : PlayerStatsLists) (fk : Nat × Nat)
    (hids : env.getGameIds season 1 2 = .ok [gA, gB])
    (hA : env.fetchStats gA = .ok pA)
    (hB : env.fetchStats gB = .ok pB)
    (fA : env.insertFault gA = some fk)
    (hfail : (insert_all_player_stats_tx (some fk) pA emptyTables).2 = .error ())
    (fB : env.insertFault gB = none) :
    (compile_season_stats env db0 season 1 2).2 =
      .ok { db := (insert_all_player_stats pB
              ((insert_all_player_stats_tx (some fk) pA emptyTables).1)).1,
            warnings := [(gA, 1)] } := by
  unfold compile_season_stats
  rw [if_neg (by norm_num), if_neg (by norm_num), if_neg (by norm_num),
    if_neg (by norm_num), if_neg (by norm_num)]
  simp only [show ((1 : Int).toNat) = 1 from rfl, show List.range 1 = [0] from rfl,
    List.map_cons, List.map_nil]
  simp only [runWeeks, runGames, hids, hA, hB, fA, fB, hfail, insert_all_tx_none]
  simp

/-- Two games; the first game's insert batch is hit by a storage fault. -/
def envC4w : Env :=
  ⟨fun _ _ _ => .ok ["gA", "gB"],
   fun _ => .ok psOnePass,
   fun g => if g = "gA" then some (0, 0) else none⟩

/-- Witness for the amended C4 at the concrete two-game environment. -/
theorem C4_persistence_failure_warned_witness :
    (compile_season_stats envC4w emptyTables 2025 1 2).2 =
      .ok { db := (insert_all_player_stats psOnePass
              ((insert_all_player_stats_tx (some (0, 0)) psOnePass emptyTables).1)).1,
            warnings := [("gA", 1)] } :=
  C4_persistence_failure_warned envC4w emptyTables 2025 "gA" "gB" psOnePass psOnePass
    (0, 0) rfl rfl rfl rfl rfl rfl

/-- C9: each category's batch is atomic with respect to failure.  A
storage error while processing any record of category `j` rolls back all
of that batch's writes — category `j`'s committed table is exactly what it
was before the call — while the batches committed earlier in the same
call (categories before `j`) keep their new state and later categories
are untouched; the error propagates.  Without a fault, all six batches
commit and the combined state and counts are those of the success path. -/
theorem C9_batch_atomicity :
    (∀ (ps : PlayerStatsLists) (db : AllTables) (k : Nat),
      k < (ps.passing.filter (fun r => r.player_id.isSome)).length →
      insert_all_player_stats_tx (some (0, k)) ps db = (db, .error ())) ∧
    (∀ (ps : PlayerStatsLists) (db : AllTables) (k : Nat),
      k < (ps.rushing.filter (fun r => r.player_id.isSome)).length →
      insert_all_player_stats_tx (some (1, k)) ps db =
        ({ db with passing := (insert_passing_stats ps.passing db.passing).1 },
         .error ())) ∧
    (∀ (ps : PlayerStatsLists) (db : AllTables) (k : Nat),
      k < (ps.receiving.filter (fun r => r.player_id.isSome)).length →
      insert_all_player_stats_tx (some (2, k)) ps db =
        ({ db with
            passing := (insert_passing_stats ps.passing db.passing).1
            rushing := (insert_rushing_stats ps.rushing db.rushing).1 },
         .error ())) ∧
    (∀ (ps : PlayerStatsLists) (db : AllTables) (k : Nat),
      k < (ps.fumbles.filter (fun r => r.player_id.isSome)).length →
      insert_all_player_stats_tx (some (3, k)) ps db =
        ({ db with
            passing := (insert_passing_stats ps.passing db.passing).1
            rushing := (insert_rushing_stats ps.rushing db.rushing).1
            receiving := (insert_receiving_stats ps.receiving db.receiving).1 },
         .error ())) ∧
    (∀ (ps : PlayerStatsLists) (db : AllTables) (k : Nat),
      k < (ps.defensive.filter (fun r => r.player_id.isSome)).length →
      insert_all_player_stats_tx (some (4, k)) ps db =
        ({ db with
            passing := (insert_passing_stats ps.passing db.passing).1
            rushing := (insert_rushing_stats ps.rushing db.rushing).1
            receiving := (insert_receiving_stats ps.receiving db.receiving).1
            fumbles := (insert_fumbles_stats ps.fumbles db.fumbles).1 },
         .error ())) ∧
    (∀ (ps : PlayerStatsLists) (db : AllTables) (k : Nat),
      k < (ps.interceptions.filter (fun r => r.player_id.isSome)).length →
      insert_all_player_stats_tx (some (5, k)) ps db =
        ({ db with
            passing := (insert_passing_stats ps.passing db.passing).1
            rushing := (insert_rushing_stats ps.rushing db.rushing).1
            receiving := (insert_receiving_stats ps.receiving db.receiving).1
            fumbles := (insert_fumbles_stats ps.fumbles db.fumbles).1
            defensive := (insert_defensive_stats ps.defensive db.defensive).1 },
         .error ())) ∧
    (∀ (ps : PlayerStatsLists) (db : AllTables),
      insert_all_player_stats_tx none ps db =
        ((insert_all_player_stats ps db).1, .ok (insert_all_player_stats ps db).2)) := by
  refine ⟨?_, ?_, ?_, ?_, ?_, ?_, fun ps db => insert_all_tx_none ps db⟩ <;>
    intro ps db k hk <;>
    simp only [insert_all_player_stats_tx, insert_passing_stats,
      insert_rushing_stats, insert_receiving_stats, insert_fumbles_stats,
      insert_defensive_stats, insert_interceptions_stats]
  · rw [show failFor (some (0, k)) 0 = some k from rfl,
      upsertTx_fail (fun r => r.player_id) pass_new_row pass_merge_row k
        ps.passing db.passing hk]
  · rw [show failFor (some (1, k)) 0 = none from rfl,
      show failFor (some (1, k)) 1 = some k from rfl,
      upsertTx_fail (fun r => r.player_id) rush_new_row rush_merge_row k
        ps.rushing db.rushing hk]
    simp only [upsertTx_none]
  · rw [show failFor (some (2, k)) 0 = none from rfl,
      show failFor (some (2, k)) 1 = none from rfl,
      show failFor (some (2, k)) 2 = some k from rfl,
      upsertTx_fail (fun r => r.player_id) recv_new_row recv_merge_row k
        ps.receiving db.receiving hk]
    simp only [upsertTx_none]
  · rw [show failFor (some (3, k)) 0 = none from rfl,
      show failFor (some (3, k)) 1 = none from rfl,
      show failFor (some (3, k)) 2 = none from rfl,
      show failFor (some (3, k)) 3 = some k from rfl,
      upsertTx_fail (fun r => r.player_id) fum_new_row fum_merge_row k
        ps.fumbles db.fumbles hk]
    simp only [upsertTx_none]
  · rw [show failFor (some (4, k)) 0 = none from rfl,
      show failFor (some (4, k)) 1 = none from rfl,
      show failFor (some (4, k)) 2 = none from rfl,
      show failFor (some (4, k)) 3 = none from rfl,
      show failFor (some (4, k)) 4 = some k from rfl,
      upsertTx_fail (fun r => r.player_id) def_new_row def_merge_row k
        ps.defensive db.defensive hk]
    simp only [upsertTx_none]
  · rw [show failFor (some (5, k)) 0 = none from rfl,
      show failFor (some (5, k)) 1 = none from rfl,
      show failFor (some (5, k)) 2 = none from rfl,
      show failFor (some (5, k)) 3 = none from rfl,
      show failFor (some (5, k)) 4 = none from rfl,
      show failFor (some (5, k)) 5 = some k from rfl,
      upsertTx_fail (fun r => r.player_id) icpt_new_row icpt_merge_row k
        ps.interceptions db.interceptions hk]
    simp only [upsertTx_none]

/-- One record with a player id in every category. -/
def psW9 : PlayerStatsLists := ⟨[pxA], [rxA], [cxA], [fxA], [dxA], [ixA]⟩

/-- Witness for C9: a fault on the first record of each category, then
the fault-free success case, at a concrete store. -/
theorem C9_batch_atomicity_witness :
    (insert_all_player_stats_tx (some (0, 0)) psW9 emptyTables =
      (emptyTables, .error ())) ∧
    (insert_all_player_stats_tx (some (1, 0)) psW9 emptyTables =
      ({ emptyTables with
          passing := (insert_passing_stats psW9.passing emptyTables.passing).1 },
       .error ())) ∧
    (insert_all_player_stats_tx (some (5, 0)) psW9 emptyTables =
      ({ emptyTables with
          passing := (insert_passing_stats psW9.passing emptyTables.passing).1
          rushing := (insert_rushing_stats psW9.rushing emptyTables.rushing).1
          receiving := (insert_receiving_stats psW9.receiving emptyTables.receiving).1
          fumbles := (insert_fumbles_stats psW9.fumbles emptyTables.fumbles).1
          defensive := (insert_defensive_stats psW9.defensive emptyTables.defensive).1 },
       .error ())) ∧
    (insert_all_player_stats_tx none psW9 emptyTables =
      ((insert_all_player_stats psW9 emptyTables).1,
       .ok (insert_all_player_stats psW9 emptyTables).2)) :=
  ⟨C9_batch_atomicity.1 psW9 emptyTables 0 (by decide),
   C9_batch_atomicity.2.1 psW9 emptyTables 0 (by decide),
   C9_batch_atomicity.2.2.2.2.2.1 psW9 emptyTables 0 (by decide),
   C9_batch_atomicity.2.2.2.2.2.2 psW9 emptyTables⟩

end NflStat
